import Mathlib

/-!
Verification of the PhysioPulse telerehabilitation scoring-and-orchestration
pipeline (telerehab-ai-backend).  The Python sources under
`src/telerehab-ai-backend/src/` are shallowly embedded below:

* `config.py` : the tier scores and the static exercise-configuration registry.
* `pose_scorer.py` : joint/frame scoring (`PoseScorer._calculate_joint_score`,
  `_extract_joint_positions`, `_score_arm_extension` and siblings,
  `_score_frame`, `score_from_landmarks`) and the three-point angle geometry
  (`PoseScorer._calculate_angle`).
* `video_analyzer.py` : the summary aggregation
  (`VideoAnalyzer._generate_analysis_summary`) and the pipeline orchestration
  (`VideoAnalyzer.run_pipeline`).
* `utils.py` : `cleanup_temp_files`.

Modelling conventions: JSON numbers are carried as `ℚ` (Python floats used by
this code are decimal literals and arithmetic on them; exact rationals are used
so that the definitions stay executable).  JSON integers are `ℤ`.  A JSON
object field whose access can raise `KeyError` at a place the code relies on is
an `Option` field.  Raised Python exceptions become `Except` errors carrying an
exception kind and message.  The filesystem is a list of existing file paths.
Since `PoseScorer._calculate_angle` is real-valued (arccos), the frame/joint
scoring machinery is parameterised by the angle function it calls; the angle
geometry itself is modelled separately over `ℝ`.
-/

namespace PhysioPulse

/-- A 2-D point, as the `(landmark["x"], landmark["y"])` pairs stored in the
`joint_positions` dictionary of `PoseScorer._extract_joint_positions`. -/
abbrev Pt : Type := ℚ × ℚ

/-- One landmark entry of a landmarks-file record: only the `"x"` and `"y"`
fields are ever read by the scorer (`pose_scorer.py`, `_extract_joint_positions`).
The `z`/`visibility` fields of the artifact format are never consumed and are
omitted from the model. -/
structure LandmarkPt where
  x : ℚ
  y : ℚ
deriving DecidableEq, Repr

/-- One raw record of the landmarks JSON file, as consumed by
`PoseScorer._score_frame` and `VideoAnalyzer._generate_analysis_summary`.
`frame` and `landmarks` are read with `[]` (a missing key raises `KeyError`),
`timestamp_sec` is read with `.get(..., 0.0)` by the scorer but with `[]` by
the summary generator, so all three are `Option` fields. -/
structure RawFrame where
  frame : Option ℤ
  timestamp_sec : Option ℚ
  landmarks : Option (List LandmarkPt)
deriving DecidableEq, Repr

/-- `config.py`: `Settings.PERFECT_SCORE` (default 100). -/
def PERFECT_SCORE : ℤ := 100

/-- `config.py`: `Settings.GOOD_SCORE` (default 75). -/
def GOOD_SCORE : ℤ := 75

/-- `config.py`: `Settings.NEEDS_IMPROVEMENT_SCORE` (default 50). -/
def NEEDS_IMPROVEMENT_SCORE : ℤ := 50

/-- The three feedback strings of an exercise configuration
(`feedback_messages` in `config.py`). -/
structure FeedbackMessages where
  perfect : String
  good : String
  needs_improvement : String
deriving DecidableEq, Repr

/-- One entry of `EXERCISE_CONFIGS` in `config.py`.  The `description` and
`target_joints` fields are never read by the scoring code and are omitted. -/
structure ExerciseConfig where
  name : String
  perfect_angle_range : ℚ × ℚ
  good_angle_range : ℚ × ℚ
  feedback_messages : FeedbackMessages
deriving DecidableEq, Repr

/-- `config.py`: `EXERCISE_CONFIGS["arm_extension"]`. -/
def armExtensionConfig : ExerciseConfig :=
  { name := "Arm Extension Exercise"
    perfect_angle_range := (150, 180)
    good_angle_range := (120, 149)
    feedback_messages :=
      { perfect := "Perfect arm extension!"
        good := "Almost there, extend a bit more"
        needs_improvement := "Bend your arm more for proper form" } }

/-- `config.py`: `EXERCISE_CONFIGS["squat"]`. -/
def squatConfig : ExerciseConfig :=
  { name := "Squat Exercise"
    perfect_angle_range := (90, 120)
    good_angle_range := (70, 89)
    feedback_messages :=
      { perfect := "Perfect squat depth!"
        good := "Go a bit deeper for better form"
        needs_improvement := "Squat deeper for proper form" } }

/-- `config.py`: `EXERCISE_CONFIGS["shoulder_press"]`. -/
def shoulderPressConfig : ExerciseConfig :=
  { name := "Shoulder Press Exercise"
    perfect_angle_range := (160, 180)
    good_angle_range := (140, 159)
    feedback_messages :=
      { perfect := "Perfect shoulder press!"
        good := "Almost fully extended"
        needs_improvement := "Extend your arms more" } }

/-- `config.py`: the `EXERCISE_CONFIGS` dictionary, as looked up via
`EXERCISE_CONFIGS.get(exercise_type)` in `score_from_landmarks`. -/
def EXERCISE_CONFIGS : String → Option ExerciseConfig := fun t =>
  if t = "arm_extension" then some armExtensionConfig
  else if t = "squat" then some squatConfig
  else if t = "shoulder_press" then some shoulderPressConfig
  else none

/-- Python `round(x, 2)` as used on the stored display angle.  Python rounds
floats half-to-even; the two agree except at exact half-cent ties, and the
rounded angle is display data never consumed by any later computation. -/
def round2 (q : ℚ) : ℚ := (round (100 * q) : ℤ) / 100

/-- One joint score record as built by `PoseScorer._calculate_joint_score`. -/
structure JointScore where
  angle : ℚ
  score : ℤ
  feedback : String
  confidence : ℚ
deriving DecidableEq, Repr

/-- `pose_scorer.py`, `PoseScorer._calculate_joint_score`: closed-interval tier
selection, perfect range tested before good range, constant confidence 1.0. -/
def calculate_joint_score (angle : ℚ) (cfg : ExerciseConfig) : JointScore :=
  if cfg.perfect_angle_range.1 ≤ angle ∧ angle ≤ cfg.perfect_angle_range.2 then
    { angle := round2 angle, score := PERFECT_SCORE
      feedback := cfg.feedback_messages.perfect, confidence := 1 }
  else if cfg.good_angle_range.1 ≤ angle ∧ angle ≤ cfg.good_angle_range.2 then
    { angle := round2 angle, score := GOOD_SCORE
      feedback := cfg.feedback_messages.good, confidence := 1 }
  else
    { angle := round2 angle, score := NEEDS_IMPROVEMENT_SCORE
      feedback := cfg.feedback_messages.needs_improvement, confidence := 1 }

/-- `pose_scorer.py`, the `joint_mapping` dictionary of
`_extract_joint_positions` (the MediaPipe landmark indices; the hardcoded
fallback table in the source holds the same values). -/
def joint_mapping : List (String × ℕ) :=
  [("left_shoulder", 11), ("right_shoulder", 12),
   ("left_elbow", 13), ("right_elbow", 14),
   ("left_wrist", 15), ("right_wrist", 16),
   ("left_hip", 23), ("right_hip", 24),
   ("left_knee", 25), ("right_knee", 26),
   ("left_ankle", 27), ("right_ankle", 28)]

/-- `pose_scorer.py`, `PoseScorer._extract_joint_positions`: the
`joint_positions` dictionary, modelled by its lookup function.  A joint name is
bound exactly when its landmark index is within the landmark list of the frame
(`if landmark_idx < len(landmarks)`), and it is bound to the corresponding
`(x, y)`. -/
def extract_joint_positions (landmarks : List LandmarkPt) : String → Option Pt :=
  fun nm =>
    (joint_mapping.find? (fun p => p.1 == nm)).bind fun p =>
      (landmarks[p.2]?).map fun lm => (lm.x, lm.y)

/-- The type of the angle routine the frame scorer calls
(`self._calculate_angle`); the scorers are parameterised by it because the real
routine is arccos-valued (see `calculate_angle` below). -/
abbrev AngleFn : Type := Pt → Pt → Pt → ℚ

/-- One guarded block of `_score_arm_extension` / `_score_squat` /
`_score_shoulder_press`: if all three named joints are present in
`joint_positions`, emit one keyed joint score computed from their three
positions (in the order the source passes them to `_calculate_angle`),
otherwise emit nothing. -/
def scoreJointTriple (angleFn : AngleFn) (jpos : String → Option Pt)
    (cfg : ExerciseConfig) (key n1 n2 n3 : String) : List (String × JointScore) :=
  match jpos n1, jpos n2, jpos n3 with
  | some a, some b, some c => [(key, calculate_joint_score (angleFn a b c) cfg)]
  | _, _, _ => []

/-- `pose_scorer.py`, `PoseScorer._score_arm_extension`: left arm from
shoulder-elbow-wrist, then right arm. -/
def score_arm_extension (angleFn : AngleFn) (jpos : String → Option Pt)
    (cfg : ExerciseConfig) : List (String × JointScore) :=
  scoreJointTriple angleFn jpos cfg "left_arm" "left_shoulder" "left_elbow" "left_wrist"
    ++ scoreJointTriple angleFn jpos cfg "right_arm" "right_shoulder" "right_elbow" "right_wrist"

/-- `pose_scorer.py`, `PoseScorer._score_squat`: left knee from
hip-knee-ankle, then right knee. -/
def score_squat (angleFn : AngleFn) (jpos : String → Option Pt)
    (cfg : ExerciseConfig) : List (String × JointScore) :=
  scoreJointTriple angleFn jpos cfg "left_knee" "left_hip" "left_knee" "left_ankle"
    ++ scoreJointTriple angleFn jpos cfg "right_knee" "right_hip" "right_knee" "right_ankle"

/-- `pose_scorer.py`, `PoseScorer._score_shoulder_press`: left shoulder from
hip-shoulder-elbow, then right shoulder. -/
def score_shoulder_press (angleFn : AngleFn) (jpos : String → Option Pt)
    (cfg : ExerciseConfig) : List (String × JointScore) :=
  scoreJointTriple angleFn jpos cfg "left_shoulder" "left_hip" "left_shoulder" "left_elbow"
    ++ scoreJointTriple angleFn jpos cfg "right_shoulder" "right_hip" "right_shoulder" "right_elbow"

/-- The exercise dispatch of `PoseScorer._score_frame`: three string-compared
branches on the configuration name, defaulting to arm extension. -/
def scoreDispatch (angleFn : AngleFn) (jpos : String → Option Pt)
    (cfg : ExerciseConfig) : List (String × JointScore) :=
  if cfg.name = "Arm Extension Exercise" then score_arm_extension angleFn jpos cfg
  else if cfg.name = "Squat Exercise" then score_squat angleFn jpos cfg
  else if cfg.name = "Shoulder Press Exercise" then score_shoulder_press angleFn jpos cfg
  else score_arm_extension angleFn jpos cfg

/-- One record of the scores JSON file: the `frame_score` dictionary built by
`PoseScorer._score_frame` (`frame`, `timestamp_sec`, then the keyed joint
scores merged in by `.update`). -/
structure FrameScoreRec where
  frame : ℤ
  timestamp_sec : ℚ
  joints : List (String × JointScore)
deriving DecidableEq, Repr

/-- `pose_scorer.py`, `PoseScorer._score_frame`.  The body reads
`frame_data["landmarks"]` and `frame_data["frame"]` (a missing key raises
`KeyError`, which the catch-all handler turns into `None`), reads
`timestamp_sec` with default 0.0, and merges in the dispatch result.  `None` is
returned exactly on the exception path. -/
def score_frame (angleFn : AngleFn) (frame_data : RawFrame)
    (cfg : ExerciseConfig) : Option FrameScoreRec :=
  match frame_data.landmarks, frame_data.frame with
  | some lms, some fr =>
      some { frame := fr
             timestamp_sec := frame_data.timestamp_sec.getD 0
             joints := scoreDispatch angleFn (extract_joint_positions lms) cfg }
  | _, _ => none

/-- Python exception kinds arising in the embedded code. -/
inductive ExcKind where
  | fileNotFound
  | valueError
  | runtimeError
  | httpError
deriving DecidableEq, Repr

/-- A raised Python exception: its kind and its `str(e)` message. -/
structure Exc where
  kind : ExcKind
  msg : String
deriving DecidableEq, Repr

/-- `pose_scorer.py`, `PoseScorer.score_from_landmarks`, with the landmarks
file contents passed directly (the pipeline wrote them immediately before).
The internal `ValueError` / `RuntimeError` raises are re-raised by the
catch-all handler of the function as `RuntimeError("Pose scoring failed: ...")`;
frames scoring to `None` are dropped, and an empty score list is an error.
On success the scores file is written by the caller model (`run_pipeline`). -/
def score_from_landmarks (angleFn : AngleFn) (frames_data : List RawFrame)
    (exercise_type : String) : Except Exc (List FrameScoreRec) :=
  if frames_data.isEmpty then
    .error ⟨.runtimeError, "Pose scoring failed: No landmarks data found"⟩
  else
    match EXERCISE_CONFIGS exercise_type with
    | none =>
        .error ⟨.runtimeError, "Pose scoring failed: Unsupported exercise type: " ++ exercise_type⟩
    | some cfg =>
        let scores := frames_data.filterMap (fun fd => score_frame angleFn fd cfg)
        if scores.isEmpty then
          .error ⟨.runtimeError, "Pose scoring failed: No valid scores generated"⟩
        else
          .ok scores

/-- `models.py`, `AnalysisSummary` (the numeric payload of the summary JSON
artifact). -/
structure AnalysisSummary where
  average_score : ℚ
  best_score : ℤ
  worst_score : ℤ
  total_frames : ℕ
  frames_with_pose : ℕ
  detection_rate : ℚ
  exercise_duration : ℚ
deriving DecidableEq, Repr

/-- The all-zero `AnalysisSummary` returned by the exception handler of
`VideoAnalyzer._generate_analysis_summary`. -/
def zeroSummary : AnalysisSummary :=
  { average_score := 0, best_score := 0, worst_score := 0, total_frames := 0
    frames_with_pose := 0, detection_rate := 0, exercise_duration := 0 }

/-- The `all_scores` flattening of `VideoAnalyzer._generate_analysis_summary`:
every `score` field of every joint entry of every score record (the `frame` and
`timestamp_sec` fields of a record are not dictionaries and are skipped by the
`isinstance` guard). -/
def allJointScores (scores_data : List FrameScoreRec) : List ℤ :=
  scores_data.flatMap fun rec => rec.joints.map fun j => j.2.score

/-- `max(all_scores)` for a nonempty list (0 is never used: the caller guards
on emptiness). -/
def listMaxZ : List ℤ → ℤ
  | [] => 0
  | x :: xs => xs.foldl max x

/-- `min(all_scores)` for a nonempty list. -/
def listMinZ : List ℤ → ℤ
  | [] => 0
  | x :: xs => xs.foldl min x

/-- `VideoAnalyzer._generate_analysis_summary` (`video_analyzer.py`), with the
two artifact files passed as the data the pipeline just wrote to them.
Statistics: `total_frames = len(landmarks_data)`,
`frames_with_pose = len(scores_data)`, guarded detection rate, exercise
duration from the first and last landmark record timestamps (reading a missing
`timestamp_sec` key raises `KeyError`, which the surrounding handler turns into
the all-zero summary), and mean/max/min over the flattened joint scores with
zeros when that collection is empty. -/
def generate_analysis_summary (landmarks_data : List RawFrame)
    (scores_data : List FrameScoreRec) : AnalysisSummary :=
  let total_frames := landmarks_data.length
  let frames_with_pose := scores_data.length
  let detection_rate : ℚ :=
    if 0 < total_frames then (frames_with_pose : ℚ) / (total_frames : ℚ) else 0
  let durResult : Option ℚ :=
    match landmarks_data.head?, landmarks_data.getLast? with
    | some f0, some f1 =>
        match f0.timestamp_sec, f1.timestamp_sec with
        | some t0, some t1 => some (t1 - t0)
        | _, _ => none
    | _, _ => some 0
  match durResult with
  | none => zeroSummary
  | some exercise_duration =>
      let all_scores := allJointScores scores_data
      if all_scores.isEmpty then
        { average_score := 0, best_score := 0, worst_score := 0
          total_frames := total_frames, frames_with_pose := frames_with_pose
          detection_rate := detection_rate, exercise_duration := exercise_duration }
      else
        { average_score := ((all_scores.map (fun z => (z : ℚ))).sum) / (all_scores.length : ℚ)
          best_score := listMaxZ all_scores
          worst_score := listMinZ all_scores
          total_frames := total_frames, frames_with_pose := frames_with_pose
          detection_rate := detection_rate, exercise_duration := exercise_duration }

/-! ### Filesystem and orchestration (`utils.py`, `video_analyzer.py`) -/

/-- The filesystem, as the list of existing file paths. -/
abbrev FS : Type := List String

/-- Writing a file (`save_json_file` on success): the path exists afterwards. -/
def writeFile (p : String) (fs : FS) : FS :=
  if p ∈ fs then fs else p :: fs

/-- `utils.py`, `cleanup_temp_files`: for each listed path, delete it if it
exists (modelled with a reliable `os.remove`). -/
def cleanup_temp_files (file_paths : List String) (fs : FS) : FS :=
  file_paths.foldl (fun acc p => acc.filter (fun q => q ≠ p)) fs

/-- `os.path.join(output_dir, analysis_id + "_landmarks.json")`. -/
def landmarksPath (output_dir analysis_id : String) : String :=
  output_dir ++ "/" ++ analysis_id ++ "_landmarks.json"

/-- `os.path.join(output_dir, analysis_id + "_scores.json")`. -/
def scoresPath (output_dir analysis_id : String) : String :=
  output_dir ++ "/" ++ analysis_id ++ "_scores.json"

/-- `os.path.join(output_dir, analysis_id + "_summary.json")`. -/
def summaryPath (output_dir analysis_id : String) : String :=
  output_dir ++ "/" ++ analysis_id ++ "_summary.json"

/-- The three artifact paths of one analysis identifier, in the order
`run_pipeline` lists them for cleanup. -/
def artifactPaths (output_dir analysis_id : String) : List String :=
  [landmarksPath output_dir analysis_id,
   scoresPath output_dir analysis_id,
   summaryPath output_dir analysis_id]

/-- The `raise RuntimeError(f"Analysis pipeline failed: {str(e)}")` rewrap in
the exception handler of `VideoAnalyzer.run_pipeline`. -/
def wrapPipelineError (e : Exc) : Exc :=
  ⟨.runtimeError, "Analysis pipeline failed: " ++ e.msg⟩

/-- The success payload of `VideoAnalyzer.run_pipeline` (the wall-clock
`processing_time` field is omitted from the model). -/
structure RunResults where
  analysis_id : String
  status : String
  exercise_type : String
  patient_id : Option String
  session_id : Option String
  landmarks_file : String
  scores_file : String
  summary_file : String
  summary : AnalysisSummary
deriving DecidableEq, Repr

/-- `video_analyzer.py`, `VideoAnalyzer.run_pipeline`.  Environment inputs the
code obtains by I/O are parameters: `videoExists` is the `os.path.exists`
check; `extractResult` is the outcome of the external
`PoseDetector.extract_pose_landmarks` call (on success the landmarks file has
been written with the returned frame records; on failure it raised the carried
exception); `summarySaveError` is an I/O failure of the final
`save_json_file`, if any.  Every exception reaching the handler triggers
`cleanup_temp_files` on the three artifact paths and is re-raised wrapped as
`RuntimeError("Analysis pipeline failed: ...")`.
`_generate_analysis_summary` itself never raises (it catches internally). -/
def run_pipeline (angleFn : AngleFn) (videoExists : Bool)
    (extractResult : Except Exc (List RawFrame)) (summarySaveError : Option Exc)
    (video_path output_dir exercise_type : String)
    (patient_id session_id : Option String) (analysis_id : String) (fs : FS) :
    Except Exc RunResults × FS :=
  let lp := landmarksPath output_dir analysis_id
  let sp := scoresPath output_dir analysis_id
  let up := summaryPath output_dir analysis_id
  let fail : Exc → FS → Except Exc RunResults × FS := fun e fs' =>
    (.error (wrapPipelineError e), cleanup_temp_files [lp, sp, up] fs')
  if videoExists then
    match extractResult with
    | .error e => fail e fs
    | .ok frames =>
        let fs1 := writeFile lp fs
        match score_from_landmarks angleFn frames exercise_type with
        | .error e => fail e fs1
        | .ok scores =>
            let fs2 := writeFile sp fs1
            let summary := generate_analysis_summary frames scores
            match summarySaveError with
            | some e => fail e fs2
            | none =>
                let fs3 := writeFile up fs2
                (.ok { analysis_id := analysis_id, status := "completed"
                       exercise_type := exercise_type
                       patient_id := patient_id, session_id := session_id
                       landmarks_file := lp, scores_file := sp, summary_file := up
                       summary := summary }, fs3)
  else
    fail ⟨.fileNotFound, "Video file not found: " ++ video_path⟩ fs

/-! ### Angle geometry (`pose_scorer.py`, `PoseScorer._calculate_angle`)

The source computes, with numpy on float vectors,
`cos = dot(ba, bc) / (norm(ba) * norm(bc))`, clips `cos` to `[-1, 1]`, takes
`degrees(arccos(cos))`, and has a catch-all handler returning `0.0`.  When
either vector has zero length the denominator is `0.0` and the numerator is
`0.0`; numpy evaluates `0.0 / 0.0` to NaN with a `RuntimeWarning` (not an
exception), NaN survives `clip`, `arccos` and `degrees`, so the function
returns NaN and the handler does not run.  The model makes the NaN outcome
explicit. -/

/-- The value of `_calculate_angle`: either NaN (degenerate input) or a real
number of degrees. -/
inductive AngleResult where
  | nan
  | deg (x : ℝ)

/-- `np.clip(x, -1.0, 1.0)`. -/
noncomputable def clipCos (x : ℝ) : ℝ := max (-1) (min 1 x)

/-- `PoseScorer._calculate_angle` on exact rational input points.  `ba` and
`bc` are the two vectors from the vertex `b`; `sq1`/`sq2` are their squared
norms.  A zero squared norm is exactly the numpy NaN path described above. -/
noncomputable def calculate_angle (a b c : Pt) : AngleResult :=
  let ba : Pt := (a.1 - b.1, a.2 - b.2)
  let bc : Pt := (c.1 - b.1, c.2 - b.2)
  let dot : ℚ := ba.1 * bc.1 + ba.2 * bc.2
  let sq1 : ℚ := ba.1 ^ 2 + ba.2 ^ 2
  let sq2 : ℚ := bc.1 ^ 2 + bc.2 ^ 2
  if sq1 = 0 ∨ sq2 = 0 then
    .nan
  else
    .deg (Real.arccos (clipCos ((dot : ℝ) / (Real.sqrt (sq1 : ℝ) * Real.sqrt (sq2 : ℝ)))) * 180 / Real.pi)

/-! ### Helper lemmas -/

/-- A concrete angle routine used to instantiate counterexamples and
witnesses. -/
def constZeroAngle : AngleFn := fun _ _ _ => 0

theorem mem_fs_of_mem_cleanup (paths : List String) (fs : FS) (p : String)
    (h : p ∈ cleanup_temp_files paths fs) : p ∈ fs := by
  induction paths generalizing fs with
  | nil => simpa [cleanup_temp_files] using h
  | cons q rest ih =>
      simp only [cleanup_temp_files, List.foldl_cons] at h
      exact (List.mem_filter.mp (ih _ h)).1

theorem mem_of_mem_cleanup (paths : List String) (fs : FS) (p : String)
    (h : p ∈ cleanup_temp_files paths fs) : p ∉ paths := by
  induction paths generalizing fs with
  | nil => simp
  | cons q rest ih =>
      simp only [cleanup_temp_files, List.foldl_cons] at h
      have h' := ih _ h
      have hq : p ∈ fs.filter (fun x => x ≠ q) :=
        mem_fs_of_mem_cleanup rest _ p h
      have hne : p ≠ q := by
        have := (List.mem_filter.mp hq).2
        simpa using this
      simp only [List.mem_cons]
      rintro (rfl | hrest)
      · exact hne rfl
      · exact h' hrest

theorem not_mem_cleanup (paths : List String) (fs : FS) (p : String)
    (h : p ∈ paths) : p ∉ cleanup_temp_files paths fs := by
  intro hc
  exact mem_of_mem_cleanup paths fs p hc h

theorem le_foldl_max (xs : List ℤ) (a : ℤ) : a ≤ xs.foldl max a := by
  induction xs generalizing a with
  | nil => exact le_rfl
  | cons x xs ih => exact le_trans (le_max_left a x) (ih (max a x))

theorem mem_le_foldl_max (xs : List ℤ) (a x : ℤ) (hx : x ∈ xs) :
    x ≤ xs.foldl max a := by
  induction xs generalizing a with
  | nil => cases hx
  | cons y ys ih =>
      rcases List.mem_cons.mp hx with rfl | hmem
      · exact le_trans (le_max_right a x) (le_foldl_max ys (max a x))
      · exact ih (max a y) hmem

theorem foldl_max_mem (xs : List ℤ) (a : ℤ) :
    xs.foldl max a = a ∨ xs.foldl max a ∈ xs := by
  induction xs generalizing a with
  | nil => exact Or.inl rfl
  | cons x xs ih =>
      rcases ih (max a x) with h | h
      · rcases max_choice a x with hm | hm
        · exact Or.inl (by simpa [hm] using h)
        · rw [hm] at h
          exact Or.inr (by rw [List.foldl_cons, hm, h]; exact List.mem_cons_self x xs)
      · exact Or.inr (List.mem_cons_of_mem x h)

theorem foldl_min_le (xs : List ℤ) (a : ℤ) : xs.foldl min a ≤ a := by
  induction xs generalizing a with
  | nil => exact le_rfl
  | cons x xs ih => exact le_trans (ih (min a x)) (min_le_left a x)

theorem foldl_min_le_mem (xs : List ℤ) (a x : ℤ) (hx : x ∈ xs) :
    xs.foldl min a ≤ x := by
  induction xs generalizing a with
  | nil => cases hx
  | cons y ys ih =>
      rcases List.mem_cons.mp hx with rfl | hmem
      · exact le_trans (foldl_min_le ys (min a x)) (min_le_right a x)
      · exact ih (min a y) hmem

theorem foldl_min_mem (xs : List ℤ) (a : ℤ) :
    xs.foldl min a = a ∨ xs.foldl min a ∈ xs := by
  induction xs generalizing a with
  | nil => exact Or.inl rfl
  | cons x xs ih =>
      rcases ih (min a x) with h | h
      · rcases min_choice a x with hm | hm
        · exact Or.inl (by simpa [hm] using h)
        · rw [hm] at h
          exact Or.inr (by rw [List.foldl_cons, hm, h]; exact List.mem_cons_self x xs)
      · exact Or.inr (List.mem_cons_of_mem x h)

theorem listMaxZ_mem (x : ℤ) (xs : List ℤ) : listMaxZ (x :: xs) ∈ x :: xs := by
  rcases foldl_max_mem xs x with h | h
  · simp [listMaxZ, h]
  · exact List.mem_cons_of_mem x (by simpa [listMaxZ] using h)

theorem le_listMaxZ (x : ℤ) (xs : List ℤ) (y : ℤ) (hy : y ∈ x :: xs) :
    y ≤ listMaxZ (x :: xs) := by
  rcases List.mem_cons.mp hy with rfl | hmem
  · simpa [listMaxZ] using le_foldl_max xs y
  · simpa [listMaxZ] using mem_le_foldl_max xs x y hmem

theorem listMinZ_mem (x : ℤ) (xs : List ℤ) : listMinZ (x :: xs) ∈ x :: xs := by
  rcases foldl_min_mem xs x with h | h
  · simp [listMinZ, h]
  · exact List.mem_cons_of_mem x (by simpa [listMinZ] using h)

theorem listMinZ_le (x : ℤ) (xs : List ℤ) (y : ℤ) (hy : y ∈ x :: xs) :
    listMinZ (x :: xs) ≤ y := by
  rcases List.mem_cons.mp hy with rfl | hmem
  · simpa [listMinZ] using foldl_min_le xs y
  · simpa [listMinZ] using foldl_min_le_mem xs x y hmem

theorem extract_joint_positions_nil (nm : String) :
    extract_joint_positions [] nm = none := by
  simp [extract_joint_positions]

theorem scoreJointTriple_of_none (angleFn : AngleFn) (cfg : ExerciseConfig)
    (jpos : String → Option Pt) (k n1 n2 n3 : String) (h : jpos n1 = none) :
    scoreJointTriple angleFn jpos cfg k n1 n2 n3 = [] := by
  simp [scoreJointTriple, h]

theorem scoreDispatch_extract_nil (angleFn : AngleFn) (cfg : ExerciseConfig) :
    scoreDispatch angleFn (extract_joint_positions []) cfg = [] := by
  have h : ∀ k n1 n2 n3,
      scoreJointTriple angleFn (extract_joint_positions []) cfg k n1 n2 n3 = [] :=
    fun k n1 n2 n3 =>
      scoreJointTriple_of_none angleFn cfg _ k n1 n2 n3 (extract_joint_positions_nil n1)
  simp only [scoreDispatch, score_arm_extension, score_squat, score_shoulder_press, h]
  split_ifs <;> rfl

/-! ### Claim theorems -/

/-- C4: on a degenerate input (all three points coincident at the origin) the
angle calculation of `PoseScorer._calculate_angle` evaluates `0.0 / 0.0`, which
numpy turns into NaN with a warning rather than an exception, so the
`except`-handler fallback `0.0` is never reached and NaN — which is neither
`0.0` nor inside `[0, 180]` — is returned.  This contradicts the claimed
fallback behaviour; the handler shows the fallback was the intent, so the code
is at fault. -/
theorem calculate_angle_coincident_nan :
    calculate_angle (0, 0) (0, 0) (0, 0) = AngleResult.nan := by
  simp [calculate_angle]

/-- On non-degenerate input (both vectors of nonzero length) the clamped
arccosine keeps the returned degrees inside `[0, 180]`: the range half of the
angle contract of the spec holds whenever the NaN path is not taken. -/
theorem calculate_angle_deg_range (a b c : Pt) (x : ℝ)
    (h : calculate_angle a b c = AngleResult.deg x) : 0 ≤ x ∧ x ≤ 180 := by
  unfold calculate_angle at h
  simp only at h
  split at h
  · cases h
  · rw [AngleResult.deg.injEq] at h
    subst h
    have hpi : (0 : ℝ) < Real.pi := Real.pi_pos
    set y : ℝ := clipCos _ with hy
    have h1 : 0 ≤ Real.arccos y := Real.arccos_nonneg y
    have h2 : Real.arccos y ≤ Real.pi := Real.arccos_le_pi y
    constructor
    · positivity
    · rw [div_le_iff₀ hpi]
      calc Real.arccos y * 180 ≤ Real.pi * 180 := by nlinarith
        _ = 180 * Real.pi := by ring

/-- C5: `PoseScorer._calculate_joint_score` selects the tier by closed-interval
membership, testing the perfect range before the good range; an angle exactly
on a perfect-range boundary scores PERFECT (100), an angle in the good but not
the perfect range scores GOOD (75), any other angle scores
NEEDS_IMPROVEMENT (50), and no other score value is possible. -/
theorem calculate_joint_score_tiers (angle : ℚ) (cfg : ExerciseConfig) :
    ((cfg.perfect_angle_range.1 ≤ angle ∧ angle ≤ cfg.perfect_angle_range.2) →
      (calculate_joint_score angle cfg).score = PERFECT_SCORE)
    ∧ ((¬(cfg.perfect_angle_range.1 ≤ angle ∧ angle ≤ cfg.perfect_angle_range.2)
        ∧ (cfg.good_angle_range.1 ≤ angle ∧ angle ≤ cfg.good_angle_range.2)) →
      (calculate_joint_score angle cfg).score = GOOD_SCORE)
    ∧ ((¬(cfg.perfect_angle_range.1 ≤ angle ∧ angle ≤ cfg.perfect_angle_range.2)
        ∧ ¬(cfg.good_angle_range.1 ≤ angle ∧ angle ≤ cfg.good_angle_range.2)) →
      (calculate_joint_score angle cfg).score = NEEDS_IMPROVEMENT_SCORE)
    ∧ ((calculate_joint_score angle cfg).score = PERFECT_SCORE
        ∨ (calculate_joint_score angle cfg).score = GOOD_SCORE
        ∨ (calculate_joint_score angle cfg).score = NEEDS_IMPROVEMENT_SCORE) := by
  unfold calculate_joint_score
  split_ifs with h1 h2 <;>
    refine ⟨?_, ?_, ?_, ?_⟩ <;> simp_all

/-- Witness for C5 at the arm-extension configuration: 150 lies exactly on the
perfect-range boundary and scores 100, 149 lies in the good range only and
scores 75, and 10 lies in neither range and scores 50. -/
theorem calculate_joint_score_tiers_witness :
    (calculate_joint_score 150 armExtensionConfig).score = PERFECT_SCORE
    ∧ (calculate_joint_score 149 armExtensionConfig).score = GOOD_SCORE
    ∧ (calculate_joint_score 10 armExtensionConfig).score = NEEDS_IMPROVEMENT_SCORE :=
  ⟨(calculate_joint_score_tiers 150 armExtensionConfig).1
      (by norm_num [armExtensionConfig]),
   (calculate_joint_score_tiers 149 armExtensionConfig).2.1
      (by norm_num [armExtensionConfig]),
   (calculate_joint_score_tiers 10 armExtensionConfig).2.2.1
      (by norm_num [armExtensionConfig])⟩

/-- C10: whenever `PoseScorer._score_frame` does not hit its exception path
(the record carries its `landmarks` and `frame` keys), the produced score
record copies the input `frame` value and carries a `timestamp_sec` that is the
input timestamp when present and defaults to 0.0 when the key is absent — in
particular a frame without `timestamp_sec` is not dropped. -/
theorem score_frame_record_fields (angleFn : AngleFn) (cfg : ExerciseConfig)
    (fr : ℤ) (ts : Option ℚ) (lms : List LandmarkPt) :
    ∃ rec, score_frame angleFn ⟨some fr, ts, some lms⟩ cfg = some rec
      ∧ rec.frame = fr
      ∧ rec.timestamp_sec = ts.getD 0
      ∧ (ts = none → rec.timestamp_sec = 0) := by
  refine ⟨_, rfl, rfl, rfl, ?_⟩
  rintro rfl
  rfl

/-- Witness for C10: a frame record with no `timestamp_sec` key is scored (not
dropped) and its output timestamp is 0.0. -/
theorem score_frame_record_fields_witness :
    ∃ rec, score_frame constZeroAngle ⟨some 7, none, some []⟩ armExtensionConfig = some rec
      ∧ rec.frame = 7
      ∧ rec.timestamp_sec = Option.getD none 0
      ∧ ((none : Option ℚ) = none → rec.timestamp_sec = 0) :=
  score_frame_record_fields constZeroAngle armExtensionConfig 7 none []

/-- C3 fails on the code: a frame whose landmark list allows no joint to be
scored is not returned as `None` and is not skipped — `_score_frame` still
returns the record `{"frame": ..., "timestamp_sec": ...}` with zero joint
scores, it is truthy, and `score_from_landmarks` appends it to the written
scores sequence.  Concretely, a single frame with an empty landmark list
produces an output containing exactly one record with no joint scores. -/
theorem score_from_landmarks_emits_empty_record :
    score_from_landmarks constZeroAngle [⟨some 0, some 0, some []⟩] "arm_extension"
      = .ok [⟨0, 0, []⟩] := rfl

/-- C3 (amended): `_score_frame` returns `None` (and the frame is then skipped
by `score_from_landmarks`) exactly when scoring raises, i.e. when the frame
record lacks its `landmarks` or its `frame` key; a frame whose landmarks score
no joint at all still yields a record carrying only the frame and timestamp
fields, which is kept in the output. -/
theorem score_frame_none_iff_missing_keys (angleFn : AngleFn) (cfg : ExerciseConfig) :
    (∀ fd : RawFrame,
      (score_frame angleFn fd cfg = none ↔ fd.landmarks = none ∨ fd.frame = none))
    ∧ (∀ (fr : ℤ) (ts : Option ℚ),
      score_frame angleFn ⟨some fr, ts, some []⟩ cfg
        = some ⟨fr, ts.getD 0, []⟩) := by
  constructor
  · rintro ⟨(_ | fr), ts, (_ | lms)⟩ <;> simp [score_frame]
  · intro fr ts
    simp [score_frame, scoreDispatch_extract_nil]

/-- Witness for the amended C3: a frame with both keys but an empty landmark
list is kept as a record with zero joint scores. -/
theorem score_frame_none_iff_missing_keys_witness :
    (score_frame constZeroAngle ⟨some 5, none, none⟩ armExtensionConfig = none
      ↔ (⟨some 5, none, none⟩ : RawFrame).landmarks = none
        ∨ (⟨some 5, none, none⟩ : RawFrame).frame = none)
    ∧ score_frame constZeroAngle ⟨some 5, some 1, some []⟩ armExtensionConfig
        = some ⟨5, (some (1 : ℚ)).getD 0, []⟩ :=
  ⟨(score_frame_none_iff_missing_keys constZeroAngle armExtensionConfig).1 _,
   (score_frame_none_iff_missing_keys constZeroAngle armExtensionConfig).2 5 (some 1)⟩

/-- C2 fails on the code: here extraction succeeded with one landmark frame,
yet every frame is unscoreable, so `score_from_landmarks` raises
`RuntimeError("No valid scores generated")` and the pipeline surfaces the
aggregated failure instead of completing with an all-zero summary. -/
theorem pipeline_fails_on_zero_scores_cex :
    score_from_landmarks constZeroAngle [⟨some 1, some 0, none⟩] "arm_extension"
      = .error ⟨.runtimeError, "Pose scoring failed: No valid scores generated"⟩
    ∧ (run_pipeline constZeroAngle true (.ok [⟨some 1, some 0, none⟩]) none
        "v.mp4" "out" "arm_extension" none none "id0" []).fst
      = .error (wrapPipelineError
          ⟨.runtimeError, "Pose scoring failed: No valid scores generated"⟩) :=
  ⟨rfl, rfl⟩

/-- C2 (amended): when extraction succeeds with a nonempty landmark-frame
sequence but frame scoring produces zero usable frame scores, the pipeline does
NOT complete: `score_from_landmarks` raises
`RuntimeError("No valid scores generated")` and `run_pipeline` surfaces the
aggregated failure (scoring with no results IS a pipeline failure). -/
theorem run_pipeline_fails_on_zero_scores (angleFn : AngleFn)
    (frames : List RawFrame) (se : Option Exc)
    (vp dir ex : String) (cfg : ExerciseConfig)
    (pid sid : Option String) (id : String) (fs : FS)
    (hne : frames ≠ [])
    (hcfg : EXERCISE_CONFIGS ex = some cfg)
    (hzero : frames.filterMap (fun fd => score_frame angleFn fd cfg) = []) :
    (run_pipeline angleFn true (.ok frames) se vp dir ex pid sid id fs).fst
      = .error (wrapPipelineError
          ⟨.runtimeError, "Pose scoring failed: No valid scores generated"⟩) := by
  have hscore : score_from_landmarks angleFn frames ex
      = .error ⟨.runtimeError, "Pose scoring failed: No valid scores generated"⟩ := by
    unfold score_from_landmarks
    rw [hcfg]
    simp [hne, hzero]
  simp [run_pipeline, hscore]

/-- Witness for the amended C2 at a concrete unscoreable frame. -/
theorem run_pipeline_fails_on_zero_scores_witness :
    (run_pipeline constZeroAngle true (.ok [⟨some 1, some 0, none⟩]) none
        "v.mp4" "out" "arm_extension" none none "id0" []).fst
      = .error (wrapPipelineError
          ⟨.runtimeError, "Pose scoring failed: No valid scores generated"⟩) :=
  run_pipeline_fails_on_zero_scores constZeroAngle [⟨some 1, some 0, none⟩] none
    "v.mp4" "out" "arm_extension" armExtensionConfig none none "id0" []
    (by simp) rfl rfl

theorem isSome_getElem_iff {α : Type} (l : List α) (i : ℕ) :
    l[i]?.isSome = true ↔ i < l.length := by
  rw [Option.isSome_iff_exists]
  constructor
  · rintro ⟨a, ha⟩
    exact (List.getElem?_eq_some.mp ha).1
  · intro h
    exact ⟨l[i], List.getElem?_eq_some.mpr ⟨h, rfl⟩⟩

theorem extract_left_shoulder (lms : List LandmarkPt) :
    extract_joint_positions lms "left_shoulder"
      = (lms[11]?).map fun lm => (lm.x, lm.y) := rfl

theorem extract_left_elbow (lms : List LandmarkPt) :
    extract_joint_positions lms "left_elbow"
      = (lms[13]?).map fun lm => (lm.x, lm.y) := rfl

theorem extract_left_wrist (lms : List LandmarkPt) :
    extract_joint_positions lms "left_wrist"
      = (lms[15]?).map fun lm => (lm.x, lm.y) := rfl

theorem extract_right_shoulder (lms : List LandmarkPt) :
    extract_joint_positions lms "right_shoulder"
      = (lms[12]?).map fun lm => (lm.x, lm.y) := rfl

theorem extract_right_elbow (lms : List LandmarkPt) :
    extract_joint_positions lms "right_elbow"
      = (lms[14]?).map fun lm => (lm.x, lm.y) := rfl

theorem extract_right_wrist (lms : List LandmarkPt) :
    extract_joint_positions lms "right_wrist"
      = (lms[16]?).map fun lm => (lm.x, lm.y) := rfl

theorem scoreJointTriple_key_mem (angleFn : AngleFn) (jpos : String → Option Pt)
    (cfg : ExerciseConfig) (k n1 n2 n3 k' : String) :
    k' ∈ (scoreJointTriple angleFn jpos cfg k n1 n2 n3).map Prod.fst
      ↔ k' = k ∧ (jpos n1).isSome ∧ (jpos n2).isSome ∧ (jpos n3).isSome := by
  rcases h1 : jpos n1 with _ | a <;> rcases h2 : jpos n2 with _ | b <;>
    rcases h3 : jpos n3 with _ | c <;>
      simp [scoreJointTriple, h1, h2, h3]

theorem scoreJointTriple_mem (angleFn : AngleFn) (jpos : String → Option Pt)
    (cfg : ExerciseConfig) (k n1 n2 n3 : String) (p : String × JointScore)
    (hp : p ∈ scoreJointTriple angleFn jpos cfg k n1 n2 n3) :
    ∃ a b c, jpos n1 = some a ∧ jpos n2 = some b ∧ jpos n3 = some c
      ∧ p = (k, calculate_joint_score (angleFn a b c) cfg) := by
  rcases h1 : jpos n1 with _ | a <;> rcases h2 : jpos n2 with _ | b <;>
    rcases h3 : jpos n3 with _ | c <;>
      rw [scoreJointTriple, h1, h2, h3] at hp <;>
        simp only [List.mem_singleton, List.not_mem_nil] at hp
  exact ⟨a, b, c, rfl, rfl, rfl, hp⟩

/-- C8 (for the arm-extension joint triples, the representative scorer named by
the claim; all three scorers go through the same `scoreJointTriple` blocks):
a joint score for an arm is emitted iff all three of its required landmarks
(shoulder, elbow, wrist) are present in the landmark list of the frame, no other
joint key is ever emitted, and every emitted score is computed by applying the
angle routine to exactly the three present joint positions. -/
theorem frame_scorer_requires_three_landmarks (angleFn : AngleFn)
    (lms : List LandmarkPt) (cfg : ExerciseConfig) :
    ("left_arm" ∈ (score_arm_extension angleFn (extract_joint_positions lms) cfg).map Prod.fst
        ↔ 11 < lms.length ∧ 13 < lms.length ∧ 15 < lms.length)
    ∧ ("right_arm" ∈ (score_arm_extension angleFn (extract_joint_positions lms) cfg).map Prod.fst
        ↔ 12 < lms.length ∧ 14 < lms.length ∧ 16 < lms.length)
    ∧ ∀ p ∈ score_arm_extension angleFn (extract_joint_positions lms) cfg,
        ∃ a b c,
          ((p.1 = "left_arm"
              ∧ extract_joint_positions lms "left_shoulder" = some a
              ∧ extract_joint_positions lms "left_elbow" = some b
              ∧ extract_joint_positions lms "left_wrist" = some c)
            ∨ (p.1 = "right_arm"
              ∧ extract_joint_positions lms "right_shoulder" = some a
              ∧ extract_joint_positions lms "right_elbow" = some b
              ∧ extract_joint_positions lms "right_wrist" = some c))
          ∧ p.2 = calculate_joint_score (angleFn a b c) cfg := by
  refine ⟨?_, ?_, ?_⟩
  · rw [score_arm_extension, List.map_append, List.mem_append,
      scoreJointTriple_key_mem, scoreJointTriple_key_mem,
      extract_left_shoulder, extract_left_elbow, extract_left_wrist,
      extract_right_shoulder, extract_right_elbow, extract_right_wrist]
    simp [isSome_getElem_iff]
  · rw [score_arm_extension, List.map_append, List.mem_append,
      scoreJointTriple_key_mem, scoreJointTriple_key_mem,
      extract_left_shoulder, extract_left_elbow, extract_left_wrist,
      extract_right_shoulder, extract_right_elbow, extract_right_wrist]
    simp [isSome_getElem_iff]
  · intro p hp
    rw [score_arm_extension, List.mem_append] at hp
    rcases hp with hp | hp
    · obtain ⟨a, b, c, h1, h2, h3, rfl⟩ :=
        scoreJointTriple_mem angleFn _ cfg _ _ _ _ p hp
      exact ⟨a, b, c, Or.inl ⟨rfl, h1, h2, h3⟩, rfl⟩
    · obtain ⟨a, b, c, h1, h2, h3, rfl⟩ :=
        scoreJointTriple_mem angleFn _ cfg _ _ _ _ p hp
      exact ⟨a, b, c, Or.inr ⟨rfl, h1, h2, h3⟩, rfl⟩

/-- Witness for C8: with 17 landmarks all six arm landmarks (indices 11–16)
are present and both arm joints are emitted. -/
theorem frame_scorer_requires_three_landmarks_witness :
    "left_arm" ∈ (score_arm_extension constZeroAngle
        (extract_joint_positions (List.replicate 17 ⟨0, 0⟩)) armExtensionConfig).map Prod.fst
    ∧ "right_arm" ∈ (score_arm_extension constZeroAngle
        (extract_joint_positions (List.replicate 17 ⟨0, 0⟩)) armExtensionConfig).map Prod.fst :=
  ⟨(frame_scorer_requires_three_landmarks constZeroAngle
      (List.replicate 17 ⟨0, 0⟩) armExtensionConfig).1.mpr
      (by simp),
   (frame_scorer_requires_three_landmarks constZeroAngle
      (List.replicate 17 ⟨0, 0⟩) armExtensionConfig).2.1.mpr
      (by simp)⟩

/-- C6: field-level contract of `VideoAnalyzer._generate_analysis_summary` for
well-formed landmark records (every record carries its `timestamp_sec` key, as
the extraction step always writes): total frames counts the landmark records,
frames-with-pose counts the score records, the detection rate is their guarded
quotient (0 when there are no frames), the duration is last minus first
landmark timestamp, and the score statistics are the mean/max/min of the
flattened joint scores, all three zero when that collection is empty. -/
theorem generate_analysis_summary_fields (L : List RawFrame) (S : List FrameScoreRec)
    (hts : ∀ f ∈ L, f.timestamp_sec ≠ none) :
    (generate_analysis_summary L S).total_frames = L.length
    ∧ (generate_analysis_summary L S).frames_with_pose = S.length
    ∧ (L = [] → (generate_analysis_summary L S).detection_rate = 0)
    ∧ (L ≠ [] →
        (generate_analysis_summary L S).detection_rate * (L.length : ℚ) = (S.length : ℚ))
    ∧ (∀ f0 f1, L.head? = some f0 → L.getLast? = some f1 →
        (generate_analysis_summary L S).exercise_duration
          = f1.timestamp_sec.getD 0 - f0.timestamp_sec.getD 0)
    ∧ (allJointScores S = [] →
        (generate_analysis_summary L S).average_score = 0
        ∧ (generate_analysis_summary L S).best_score = 0
        ∧ (generate_analysis_summary L S).worst_score = 0)
    ∧ (allJointScores S ≠ [] →
        (generate_analysis_summary L S).average_score * ((allJointScores S).length : ℚ)
            = ((allJointScores S).map (fun z => (z : ℚ))).sum
        ∧ (generate_analysis_summary L S).best_score ∈ allJointScores S
        ∧ (∀ x ∈ allJointScores S, x ≤ (generate_analysis_summary L S).best_score)
        ∧ (generate_analysis_summary L S).worst_score ∈ allJointScores S
        ∧ (∀ x ∈ allJointScores S, (generate_analysis_summary L S).worst_score ≤ x)) := by
  have hred : ∃ d : ℚ,
      (generate_analysis_summary L S
        = if (allJointScores S).isEmpty then
            { average_score := 0, best_score := 0, worst_score := 0
              total_frames := L.length, frames_with_pose := S.length
              detection_rate := if 0 < L.length then (S.length : ℚ) / (L.length : ℚ) else 0
              exercise_duration := d }
          else
            { average_score := ((allJointScores S).map (fun z => (z : ℚ))).sum
                  / ((allJointScores S).length : ℚ)
              best_score := listMaxZ (allJointScores S)
              worst_score := listMinZ (allJointScores S)
              total_frames := L.length, frames_with_pose := S.length
              detection_rate := if 0 < L.length then (S.length : ℚ) / (L.length : ℚ) else 0
              exercise_duration := d })
      ∧ (∀ f0 f1, L.head? = some f0 → L.getLast? = some f1 →
          d = f1.timestamp_sec.getD 0 - f0.timestamp_sec.getD 0) := by
    cases hL : L with
    | nil =>
        refine ⟨0, ?_, ?_⟩
        · simp [generate_analysis_summary]
        · intro f0 f1 h0 h1
          simp at h0
    | cons f rest =>
        have hmemf : f ∈ L := by rw [hL]; exact List.mem_cons_self f rest
        have hne : L ≠ [] := by rw [hL]; simp
        obtain ⟨f1, hlast⟩ :=
          Option.isSome_iff_exists.mp (List.getLast?_isSome.mpr hne)
        have hmeml : f1 ∈ L := List.mem_of_mem_getLast? hlast
        obtain ⟨t0, ht0⟩ := Option.ne_none_iff_exists'.mp (hts f hmemf)
        obtain ⟨t1, ht1⟩ := Option.ne_none_iff_exists'.mp (hts _ hmeml)
        rw [hL] at hlast
        refine ⟨t1 - t0, ?_, ?_⟩
        · simp only [generate_analysis_summary, List.head?_cons, hlast, ht0, ht1]
        · intro f0 f1' h0 h1
          rw [List.head?_cons, Option.some.injEq] at h0
          rw [hlast, Option.some.injEq] at h1
          subst h0
          subst h1
          rw [ht0, ht1]
          rfl
  obtain ⟨d, hgas, hd⟩ := hred
  by_cases hS : allJointScores S = []
  · have hE : (allJointScores S).isEmpty = true := by simp [hS]
    rw [hgas, if_pos hE]
    refine ⟨rfl, rfl, ?_, ?_, ?_, fun _ => ⟨rfl, rfl, rfl⟩, fun h => absurd hS h⟩
    · intro hnil
      simp [hnil]
    · intro hne
      have hlen : (0 : ℕ) < L.length := List.length_pos.mpr hne
      have hlenQ : (L.length : ℚ) ≠ 0 := by
        exact_mod_cast Nat.pos_iff_ne_zero.mp hlen
      simp only [if_pos hlen]
      exact div_mul_cancel₀ _ hlenQ
    · intro f0 f1 h0 h1
      exact hd f0 f1 h0 h1
  · have hE : (allJointScores S).isEmpty = false := by
      simp [List.isEmpty_iff, hS]
    rw [hgas, if_neg (by simp [hE])]
    have hlenA : ((allJointScores S).length : ℚ) ≠ 0 := by
      have := List.length_pos.mpr hS
      exact_mod_cast Nat.pos_iff_ne_zero.mp this
    refine ⟨rfl, rfl, ?_, ?_, ?_, fun h => absurd h hS, fun _ => ⟨?_, ?_, ?_, ?_, ?_⟩⟩
    · intro hnil
      simp [hnil]
    · intro hne
      have hlen : (0 : ℕ) < L.length := List.length_pos.mpr hne
      have hlenQ : (L.length : ℚ) ≠ 0 := by
        exact_mod_cast Nat.pos_iff_ne_zero.mp hlen
      simp only [if_pos hlen]
      exact div_mul_cancel₀ _ hlenQ
    · intro f0 f1 h0 h1
      exact hd f0 f1 h0 h1
    · exact div_mul_cancel₀ _ hlenA
    · cases hA : allJointScores S with
      | nil => exact absurd hA hS
      | cons x xs => exact listMaxZ_mem x xs
    · intro x hx
      cases hA : allJointScores S with
      | nil => exact absurd hA hS
      | cons y ys =>
          rw [hA] at hx
          exact le_listMaxZ y ys x hx
    · cases hA : allJointScores S with
      | nil => exact absurd hA hS
      | cons x xs => exact listMinZ_mem x xs
    · intro x hx
      cases hA : allJointScores S with
      | nil => exact absurd hA hS
      | cons y ys =>
          rw [hA] at hx
          exact listMinZ_le y ys x hx

/-- Witness for C6 on a concrete two-frame landmark sequence with one scored
frame carrying one joint score. -/
theorem generate_analysis_summary_fields_witness :
    (generate_analysis_summary
        [⟨some 1, some 0, some []⟩, ⟨some 3, some 2, some []⟩]
        [⟨1, 0, [("left_arm", ⟨45, 75, "g", 1⟩)]⟩]).total_frames
      = ([⟨some 1, some 0, some []⟩, ⟨some 3, some 2, some []⟩] : List RawFrame).length
    ∧ (generate_analysis_summary
        [⟨some 1, some 0, some []⟩, ⟨some 3, some 2, some []⟩]
        [⟨1, 0, [("left_arm", ⟨45, 75, "g", 1⟩)]⟩]).frames_with_pose
      = ([⟨1, 0, [("left_arm", ⟨45, 75, "g", 1⟩)]⟩] : List FrameScoreRec).length := by
  obtain ⟨h1, h2, -⟩ := generate_analysis_summary_fields
    [⟨some 1, some 0, some []⟩, ⟨some 3, some 2, some []⟩]
    [⟨1, 0, [("left_arm", ⟨45, 75, "g", 1⟩)]⟩]
    (by decide)
  exact ⟨h1, h2⟩

/-- C9: the summary aggregation is a deterministic pure function of the frozen
landmark and score sequences — two runs over the same inputs produce the same
`AnalysisSummary`. -/
theorem generate_analysis_summary_deterministic (L : List RawFrame)
    (S : List FrameScoreRec) (s1 s2 : AnalysisSummary)
    (h1 : s1 = generate_analysis_summary L S)
    (h2 : s2 = generate_analysis_summary L S) : s1 = s2 :=
  h1.trans h2.symm

/-- Witness for C9 at concrete frozen sequences. -/
theorem generate_analysis_summary_deterministic_witness :
    generate_analysis_summary [⟨some 1, some 0, some []⟩] []
      = generate_analysis_summary [⟨some 1, some 0, some []⟩] [] :=
  generate_analysis_summary_deterministic [⟨some 1, some 0, some []⟩] [] _ _ rfl rfl

/-- C1: whenever `VideoAnalyzer.run_pipeline` surfaces a failure — at the
precondition check, EXTRACT, SCORE, or the summary persist — its exception
handler has run `cleanup_temp_files` on the three artifact paths named from
the analysis identifier of the run, so none of the three output files exists in the
final filesystem state. -/
theorem run_pipeline_failure_cleans_artifacts (angleFn : AngleFn) (ve : Bool)
    (er : Except Exc (List RawFrame)) (se : Option Exc)
    (vp dir ex : String) (pid sid : Option String) (id : String)
    (fs : FS) (e : Exc) (fs' : FS)
    (h : run_pipeline angleFn ve er se vp dir ex pid sid id fs = (.error e, fs')) :
    ∀ p ∈ artifactPaths dir id, p ∉ fs' := by
  intro p hp
  have hp' : p ∈ [landmarksPath dir id, scoresPath dir id, summaryPath dir id] := hp
  unfold run_pipeline at h
  split at h
  · split at h
    · dsimp only at h
      rw [Prod.mk.injEq] at h
      obtain ⟨-, h2⟩ := h
      rw [← h2]
      exact not_mem_cleanup _ _ p hp'
    · split at h
      · dsimp only at h
        rw [Prod.mk.injEq] at h
        obtain ⟨-, h2⟩ := h
        rw [← h2]
        exact not_mem_cleanup _ _ p hp'
      · split at h
        · dsimp only at h
          rw [Prod.mk.injEq] at h
          obtain ⟨-, h2⟩ := h
          rw [← h2]
          exact not_mem_cleanup _ _ p hp'
        · dsimp only at h
          rw [Prod.mk.injEq] at h
          obtain ⟨h1, -⟩ := h
          exact Except.noConfusion h1
  · dsimp only at h
    rw [Prod.mk.injEq] at h
    obtain ⟨-, h2⟩ := h
    rw [← h2]
    exact not_mem_cleanup _ _ p hp'

/-- Witness for C1: a concrete failing run (missing video) whose pre-existing
landmarks artifact for the same identifier has been removed. -/
theorem run_pipeline_failure_cleans_artifacts_witness :
    landmarksPath "out" "id0"
      ∉ (run_pipeline constZeroAngle false (.ok []) none "v.mp4" "out"
          "arm_extension" none none "id0" [landmarksPath "out" "id0"]).snd := by
  have h := run_pipeline_failure_cleans_artifacts constZeroAngle false (.ok [])
    none "v.mp4" "out" "arm_extension" none none "id0" [landmarksPath "out" "id0"]
    (wrapPipelineError ⟨.fileNotFound, "Video file not found: " ++ "v.mp4"⟩)
    (cleanup_temp_files (artifactPaths "out" "id0") [landmarksPath "out" "id0"])
    rfl
  exact h (landmarksPath "out" "id0") (by simp [artifactPaths])

/-- C7: running the pipeline on a non-existent video path fails with the
NotFound precondition error (the `FileNotFoundError` raised by the existence
check, surfaced as the single aggregated pipeline failure wrapping its
message), and none of the three artifact files of the run exists afterwards. -/
theorem run_pipeline_missing_video (angleFn : AngleFn)
    (er : Except Exc (List RawFrame)) (se : Option Exc)
    (vp dir ex : String) (pid sid : Option String) (id : String) (fs : FS) :
    (run_pipeline angleFn false er se vp dir ex pid sid id fs).fst
      = .error (wrapPipelineError ⟨.fileNotFound, "Video file not found: " ++ vp⟩)
    ∧ ∀ p ∈ artifactPaths dir id,
        p ∉ (run_pipeline angleFn false er se vp dir ex pid sid id fs).snd := by
  constructor
  · rfl
  · intro p hp
    exact not_mem_cleanup [landmarksPath dir id, scoresPath dir id, summaryPath dir id] fs p hp

/-- Witness for C7 at concrete arguments. -/
theorem run_pipeline_missing_video_witness :
    (run_pipeline constZeroAngle false (.ok []) none "v.mp4" "out"
        "arm_extension" none none "id0" []).fst
      = .error (wrapPipelineError ⟨.fileNotFound, "Video file not found: " ++ "v.mp4"⟩)
    ∧ landmarksPath "out" "id0"
        ∉ (run_pipeline constZeroAngle false (.ok []) none "v.mp4" "out"
            "arm_extension" none none "id0" []).snd := by
  obtain ⟨h1, h2⟩ := run_pipeline_missing_video constZeroAngle (.ok []) none
    "v.mp4" "out" "arm_extension" none none "id0" []
  exact ⟨h1, h2 _ (by simp [artifactPaths])⟩

end PhysioPulse
